import Mathlib

/-!
A verification development for the Gear runtime API (`gear_runtime.h`,
`gear_debugger.h`, `gear_config.h`).  The repository ships the public headers
with their documented contracts; the runtime implementation itself is not
part of the source tree, so the operational definitions below are modelled
from the specification and the headers' documented behaviour, and the
theorems settle the spec's claims against that model.
-/

/-- Modelled from the spec: the tagged Value datum (spec section 3).  `Null`,
`Bool`, `Int` and `Float` are primitive variants copied by value; `str` and
`obj` carry heap addresses (String and Object are reference types); `func`
indexes the runtime's function table (a native pointer or compiled entry).
`gear_int` defaults to `long long` (64-bit signed); `gear_float` is modelled
as a rational number. -/
inductive Value where
  | null : Value
  | bool : Bool → Value
  | int : Int → Value
  | float : Rat → Value
  | str : Nat → Value
  | obj : Nat → Value
  | func : Nat → Value
deriving DecidableEq

/-- Modelled from the spec: a Heap Object body (spec section 3): UTF-8 bytes
for strings, a mapping from field name to Value for objects. -/
inductive HeapObj where
  | hstr : String → HeapObj
  | hobj : List (String × Value) → HeapObj
deriving DecidableEq

/-- Modelled from the spec: a callee (spec section 9): native callback or
compiled entry, treated uniformly by the Dispatcher; abstracted as an arity
plus a body mapping the read argument list to the one result value. -/
structure GearFunc where
  arity : Nat
  body : List Value → Value

/-- Modelled from the spec: the error kinds of spec section 7. -/
inductive GearError where
  | typeMismatch : GearError
  | symbolNotFound : GearError
  | loadFailure : GearError
  | allocationFailure : GearError
  | debugServerAlreadyRunning : GearError
  | debugServerBindFailure : GearError
  | stackOverflow : GearError
deriving DecidableEq

/-- Modelled from the spec: a Runtime Instance (spec section 3): register
table (total over abstract handles, with the list of allocated handles kept
for GC rooting), heap, function table, the loaded module's exported symbol
table, call stack of frames, error state, and at most one debug session.
`bindOk` models the external socket environment of gear_debugger.h: whether
the operating system lets a listening server socket be created on a given
address and port. -/
structure Runtime where
  regs : Nat → Value
  allocated : List Nat
  heap : List (Option HeapObj)
  funcs : List GearFunc
  symbols : List (String × Value)
  callStack : List (List Value)
  lastError : Option GearError
  debugServer : Option (String × Int)
  bindOk : String → Int → Bool

/-- Read a register slot. -/
def regRead (rt : Runtime) (r : Nat) : Value := rt.regs r

/-- Write a register slot. -/
def regWrite (rt : Runtime) (r : Nat) (v : Value) : Runtime :=
  { rt with regs := fun x => if x = r then v else rt.regs x }

/-- Modelled from the spec: raising an error records it in the Error State
(spec section 4.5; the error callback and the last-error slot always fire
together, so one channel models both). -/
def setError (rt : Runtime) (e : GearError) : Runtime :=
  { rt with lastError := some e }

/-- Modelled from the spec: `gear_set_null` stores null in the register. -/
def gear_set_null (rt : Runtime) (reg : Nat) : Runtime :=
  regWrite rt reg Value.null

/-- Modelled from the spec: `gear_set_int` stores a `gear_int` in the register. -/
def gear_set_int (rt : Runtime) (reg : Nat) (value : Int) : Runtime :=
  regWrite rt reg (Value.int value)

/-- Modelled from the spec: `gear_set_float` stores a `gear_float` in the register. -/
def gear_set_float (rt : Runtime) (reg : Nat) (value : Rat) : Runtime :=
  regWrite rt reg (Value.float value)

/-- Modelled from the spec: `gear_set_bool` stores a boolean (the C `int`
argument is nonzero for true) in the register. -/
def gear_set_bool (rt : Runtime) (reg : Nat) (value : Int) : Runtime :=
  regWrite rt reg (Value.bool (if value = 0 then false else true))

/-- Modelled from the spec: `gear_set_string` allocates a fresh heap String
object and stores a reference to it in the register. -/
def gear_set_string (rt : Runtime) (reg : Nat) (value : String) : Runtime :=
  regWrite { rt with heap := rt.heap ++ [some (HeapObj.hstr value)] }
    reg (Value.str rt.heap.length)

/-- Truncation toward zero, the C cast from `gear_float` to `gear_int`. -/
def ratTrunc (q : Rat) : Int := q.num.tdiv q.den

/-- Modelled from the spec: `gear_get_int` (gear_runtime.h): a stored float is
converted (truncated) to an integer; a stored boolean converts to 0 or 1; for
all other types 0 is returned and the error flag set. -/
def gear_get_int (rt : Runtime) (reg : Nat) : Runtime × Int :=
  match regRead rt reg with
  | Value.int i => (rt, i)
  | Value.float q => (rt, ratTrunc q)
  | Value.bool b => (rt, if b then 1 else 0)
  | _ => (setError rt GearError.typeMismatch, 0)

/-- Modelled from the spec: `gear_get_float` (gear_runtime.h): a stored
integer is converted to a float; for all other types 0 is returned and the
error flag set. -/
def gear_get_float (rt : Runtime) (reg : Nat) : Runtime × Rat :=
  match regRead rt reg with
  | Value.float q => (rt, q)
  | Value.int i => (rt, (i : Rat))
  | _ => (setError rt GearError.typeMismatch, 0)

/-- Modelled from the spec: `gear_get_bool` (gear_runtime.h): all values are
truthy except false, null, and the integer zero. -/
def gear_get_bool (rt : Runtime) (reg : Nat) : Bool :=
  match regRead rt reg with
  | Value.null => false
  | Value.bool b => b
  | Value.int i => if i = 0 then false else true
  | _ => true

/-- Modelled from the spec: `gear_is_null` tests whether the register holds null. -/
def gear_is_null (rt : Runtime) (reg : Nat) : Bool :=
  regRead rt reg = Value.null

/-- Association-list lookup used by the exported symbol table and object fields. -/
def lookupAssoc {α : Type} : List (String × α) → String → Option α
  | [], _ => none
  | (k, v) :: rest, key => if k = key then some v else lookupAssoc rest key

/-- Resolve a name against the loaded module's exported symbol table. -/
def lookupSymbol (rt : Runtime) (name : String) : Option Value :=
  lookupAssoc rt.symbols name

/-- Modelled from the spec: `gear_get_symbol` (gear_runtime.h): on success the
symbol's value is stored in `dest` and 0 is returned; a non-zero value is
returned if the symbol could not be found, with the error state set and the
destination register left unmodified. -/
def gear_get_symbol (rt : Runtime) (symbol : String) (dest : Nat) : Runtime × Int :=
  match lookupSymbol rt symbol with
  | some v => (regWrite rt dest v, 0)
  | none => (setError rt GearError.symbolNotFound, 1)

/-- Modelled from the spec: `gear_move` copies the source register's datum to
the destination: primitives are copied by value, reference types copy only
the reference (identity sharing); the source register is left unchanged. -/
def gear_move (rt : Runtime) (src : Nat) (dest : Nat) : Runtime :=
  regWrite rt dest (regRead rt src)

/-- Update one field of an object's field list. -/
def setAssoc : List (String × Value) → String → Value → List (String × Value)
  | [], key, v => [(key, v)]
  | (k, w) :: rest, key, v =>
      if k = key then (k, v) :: rest else (k, w) :: setAssoc rest key v

/-- Modelled from the spec: mutate a field of the Heap Object referenced by
the register (spec section 3, identity sharing: mutations are observed
through every register holding the same reference). -/
def gear_set_field (rt : Runtime) (reg : Nat) (field : String) (v : Value) : Runtime :=
  match regRead rt reg with
  | Value.obj a =>
    match rt.heap[a]? with
    | some (some (HeapObj.hobj fields)) =>
        { rt with heap := rt.heap.set a (some (HeapObj.hobj (setAssoc fields field v))) }
    | _ => setError rt GearError.typeMismatch
  | _ => setError rt GearError.typeMismatch

/-- Modelled from the spec: read a field of the Heap Object referenced by the
register. -/
def gear_get_field (rt : Runtime) (reg : Nat) (field : String) : Option Value :=
  match regRead rt reg with
  | Value.obj a =>
    match rt.heap[a]? with
    | some (some (HeapObj.hobj fields)) => lookupAssoc fields field
    | _ => none
  | _ => none

/-- Modelled from the spec: `gear_start_debug_server` (gear_debugger.h): an
error (non-zero) is returned if a debug server is already active for the
runtime, leaving the active session untouched, or if the server socket
cannot be created on the given address or port (the external `bindOk`
environment); otherwise the session starts and 0 is returned. -/
def gear_start_debug_server (rt : Runtime) (address : String) (port : Int)
    (wait : Bool) : Runtime × Int :=
  match rt.debugServer with
  | some _ => (setError rt GearError.debugServerAlreadyRunning, 1)
  | none =>
    if rt.bindOk address port then
      ({ rt with debugServer := some (address, port) }, 0)
    else
      (setError rt GearError.debugServerBindFailure, 1)

/-- Modelled from the spec: `gear_stop_debug_server` stops any active session
and performs no action when none is running. -/
def gear_stop_debug_server (rt : Runtime) : Runtime :=
  { rt with debugServer := none }

/-- The reserved return-register slot (the `GEAR_RETURN` handle of
gear_runtime.h's examples). -/
def GEAR_RETURN : Nat := 0

/-- The reserved parameter window (the `GEAR_PARAM(i)` handles of
gear_runtime.h's examples): parameter `i` of the window. -/
def GEAR_PARAM (i : Nat) : Nat := i + 1

/-- The `argc` values read from the parameter window. -/
def paramValues (rt : Runtime) (argc : Nat) : List Value :=
  (List.range argc).map (fun i => regRead rt (GEAR_PARAM i))

/-- Modelled from the spec: null out the parameter window (registers
`GEAR_PARAM 0` through `GEAR_PARAM (argc-1)`) after a call completes. -/
def nullParams (rt : Runtime) (argc : Nat) : Runtime :=
  { rt with regs := fun x => if 1 ≤ x ∧ x ≤ argc then Value.null else rt.regs x }

/-- Push a Call Frame holding the invocation's argument slots. -/
def pushFrame (rt : Runtime) (args : List Value) : Runtime :=
  { rt with callStack := args :: rt.callStack }

/-- Pop the topmost Call Frame. -/
def popFrame (rt : Runtime) : Runtime :=
  { rt with callStack := rt.callStack.tail }

/-- Modelled from the spec: the shared invocation path (spec section 4.2):
read `argc` values from the parameter window, push a Call Frame, execute the
compiled body or native callback, write exactly one result into the reserved
return-register slot (overwriting any prior value), null out the parameter
window, pop the frame. -/
def callFunction (rt : Runtime) (fid : Nat) (argc : Nat) : Runtime :=
  match rt.funcs[fid]? with
  | some f =>
      let args := paramValues rt argc
      let rt1 := pushFrame rt args
      let rt2 := regWrite rt1 GEAR_RETURN (f.body args)
      let rt3 := nullParams rt2 argc
      popFrame rt3
  | none => setError rt GearError.symbolNotFound

/-- Modelled from the spec: `gear_call` invokes the function held by the
register with `argc` arguments. -/
def gear_call (rt : Runtime) (reg : Nat) (argc : Nat) : Runtime :=
  match regRead rt reg with
  | Value.func fid => callFunction rt fid argc
  | _ => setError rt GearError.typeMismatch

/-- Modelled from the spec: `gear_call_by_name` resolves the exported name and
invokes the function it denotes with `argc` arguments. -/
def gear_call_by_name (rt : Runtime) (name : String) (argc : Nat) : Runtime :=
  match lookupSymbol rt name with
  | some (Value.func fid) => callFunction rt fid argc
  | _ => setError rt GearError.symbolNotFound

/-- The heap addresses referenced by one Value (`String` and `Object`
references; `func` indexes the function table, not the heap). -/
def valueRefs : Value → List Nat
  | Value.str a => [a]
  | Value.obj a => [a]
  | _ => []

/-- The heap addresses referenced by one Heap Object's body. -/
def objRefs : HeapObj → List Nat
  | HeapObj.hstr _ => []
  | HeapObj.hobj fields => (fields.map (fun p => valueRefs p.2)).flatten

/-- The heap addresses referenced by one heap slot (a reclaimed slot
references nothing). -/
def slotRefs : Option HeapObj → List Nat
  | some o => objRefs o
  | none => []

/-- The collector's successor function: the addresses directly referenced by
the object stored at address `a`. -/
def succsOf (rt : Runtime) (a : Nat) : List Nat :=
  slotRefs (rt.heap[a]?.getD none)

/-- Modelled from the spec: the collector's root set (spec section 3): the
union of allocated Registers, live Call Frame slots, and module-global
constants of the exported symbol table. -/
def rootsOf (rt : Runtime) : List Nat :=
  (rt.allocated.map (fun r => valueRefs (regRead rt r))).flatten ++
    (rt.callStack.map (fun frame => (frame.map valueRefs).flatten)).flatten ++
    (rt.symbols.map (fun p => valueRefs p.2)).flatten

/-- Transitive reachability from the root set through heap references. -/
inductive Reach (succs : Nat → List Nat) (roots : List Nat) : Nat → Prop where
  | root {o : Nat} : o ∈ roots → Reach succs roots o
  | step {a b : Nat} : Reach succs roots a → b ∈ succs a → Reach succs roots b

/-- A heap address is transitively reachable from the runtime's root set. -/
def Reachable (rt : Runtime) (o : Nat) : Prop :=
  Reach (succsOf rt) (rootsOf rt) o

/-- One marking slice: color every object directly referenced by an
already-marked object (spec section 4.3, the incremental Marking phase). -/
def markStep (succs : Nat → List Nat) (S : Finset Nat) : Finset Nat :=
  S ∪ S.biUnion (fun a => (succs a).toFinset)

/-- Modelled from the spec: the Marking phase (spec section 4.3): starting
from the root set, iterate marking slices until saturation (the heap size
bounds the number of slices needed). -/
def markSet (succs : Nat → List Nat) (roots : List Nat) (size : Nat) : Finset Nat :=
  (markStep succs)^[size] roots.toFinset

/-- Modelled from the spec: one full collection cycle (spec section 4.3,
Marking then Sweeping): every object not marked reachable is reclaimed (its
slot reset); marked objects are retained unchanged. -/
def gear_collect (rt : Runtime) : Runtime :=
  let marked := markSet (succsOf rt) (rootsOf rt) rt.heap.length
  { rt with
      heap := (List.range rt.heap.length).map
        (fun i => if i ∈ marked then rt.heap.getD i none else none) }

/-- Well-formed heap: every root and every reference stored in a live heap
object points inside the heap. -/
def heapWF (rt : Runtime) : Prop :=
  (∀ a ∈ rootsOf rt, a < rt.heap.length) ∧
    (∀ slot ∈ rt.heap, ∀ a ∈ slotRefs slot, a < rt.heap.length)

instance (rt : Runtime) : Decidable (heapWF rt) := by
  unfold heapWF
  infer_instance

/-- A minimal concrete Runtime Instance used for concrete evaluations. -/
def baseRT : Runtime :=
  { regs := fun _ => Value.null
    allocated := []
    heap := []
    funcs := []
    symbols := []
    callStack := []
    lastError := none
    debugServer := none
    bindOk := fun _ _ => true }

/-- A concrete instance whose environment refuses every socket bind, used to
exercise the bind-failure error path. -/
def rtBind : Runtime :=
  { baseRT with bindOk := fun _ _ => false }

/-- A concrete instance exporting one symbol, used for symbol-lookup evaluations. -/
def rtSym : Runtime :=
  { baseRT with symbols := [("add", Value.func 0)] }

/-- A concrete instance with an active debug session and an Object-holding
register, used for error-surface evaluations. -/
def rtErr : Runtime :=
  { baseRT with
      debugServer := some ("0.0.0.0", 9229)
      regs := fun x => if x = 5 then Value.obj 0 else Value.null
      heap := [some (HeapObj.hobj [])] }

/-- A concrete instance whose debug session was started through the API. -/
def rtDbg : Runtime :=
  (gear_start_debug_server baseRT "127.0.0.1" 9229 false).1

/-- The body of a concrete two-parameter addition function. -/
def addBody : List Value → Value
  | [Value.int a, Value.int b] => Value.int (a + b)
  | _ => Value.null

/-- A concrete instance exporting a two-parameter `add` function, with the
parameter window filled with 4 and 5 and register 10 holding the function. -/
def rtCall : Runtime :=
  { baseRT with
      regs := fun x =>
        if x = GEAR_PARAM 0 then Value.int 4
        else if x = GEAR_PARAM 1 then Value.int 5
        else if x = 10 then Value.func 0
        else Value.null
      funcs := [{ arity := 2, body := addBody }]
      symbols := [("add", Value.func 0)] }

/-- A concrete instance for collector evaluations: allocated register 5 holds
a reference to heap object 0, which references heap string 1; heap slot 2 is
garbage reachable from nothing. -/
def rtGC : Runtime :=
  { baseRT with
      regs := fun x => if x = 5 then Value.obj 0 else Value.null
      allocated := [5]
      heap := [some (HeapObj.hobj [("next", Value.str 1)]),
               some (HeapObj.hstr "payload"),
               some (HeapObj.hstr "garbage")] }

/-- A concrete instance for move-aliasing evaluations: register 7 holds a
reference to a one-field heap object. -/
def rtMove : Runtime :=
  { baseRT with
      regs := fun x =>
        if x = 7 then Value.obj 0 else if x = 8 then Value.int 11 else Value.null
      heap := [some (HeapObj.hobj [("x", Value.int 1)])] }

/-- The rational 15/2, built in lowest terms. -/
def sevenAndHalf : Rat := Rat.mk' 15 2 (by decide) (by decide)

theorem lookupAssoc_setAssoc (fields : List (String × Value)) (key : String) (v : Value) :
    lookupAssoc (setAssoc fields key v) key = some v := by
  induction fields with
  | nil => simp [setAssoc, lookupAssoc]
  | cons p rest ih =>
    obtain ⟨k, w⟩ := p
    by_cases h : k = key
    · simp [setAssoc, lookupAssoc, h]
    · simp [setAssoc, lookupAssoc, h, ih]

/-- Claim C5: for every signed integer representable in the configured
`gear_int` storage width (64-bit `long long` by default) and every register,
`gear_set_int` followed by `gear_get_int` returns exactly that integer. -/
theorem set_int_get_int_roundtrip (rt : Runtime) (r : Nat) (i : Int)
    (h : -(2 ^ 63) ≤ i ∧ i < 2 ^ 63) :
    (gear_get_int (gear_set_int rt r i) r).2 = i := by
  simp [gear_get_int, gear_set_int, regRead, regWrite]

/-- Witness for C5 at a concrete input. -/
theorem set_int_get_int_roundtrip_witness :
    (-(2 ^ 63) ≤ (42 : Int) ∧ (42 : Int) < 2 ^ 63) ∧
      (gear_get_int (gear_set_int baseRT 3 42) 3).2 = 42 :=
  ⟨⟨by decide, by decide⟩,
    set_int_get_int_roundtrip baseRT 3 42 ⟨by decide, by decide⟩⟩

/-- Claim C6: `gear_get_int` truncates a stored Float to an integer; on a
String, Object or Function value it returns 0 and fails with a type error
that leaves the error state set. -/
theorem get_int_float_truncates_and_nonnumeric_errors (rt : Runtime) (r : Nat) :
    (∀ q, regRead rt r = Value.float q → gear_get_int rt r = (rt, ratTrunc q)) ∧
    (∀ a, regRead rt r = Value.str a →
      (gear_get_int rt r).2 = 0 ∧
        (gear_get_int rt r).1.lastError = some GearError.typeMismatch) ∧
    (∀ a, regRead rt r = Value.obj a →
      (gear_get_int rt r).2 = 0 ∧
        (gear_get_int rt r).1.lastError = some GearError.typeMismatch) ∧
    (∀ fid, regRead rt r = Value.func fid →
      (gear_get_int rt r).2 = 0 ∧
        (gear_get_int rt r).1.lastError = some GearError.typeMismatch) := by
  refine ⟨?_, ?_, ?_, ?_⟩ <;> intro x hx <;> simp [gear_get_int, hx, setError]

/-- Witness for C6 at concrete inputs: 7.5 truncates to 7; a string-holding
register reads as 0 with the error state set. -/
theorem get_int_float_truncates_and_nonnumeric_errors_witness :
    (gear_get_int (gear_set_float baseRT 2 sevenAndHalf) 2).2 = 7 ∧
    (gear_get_int (gear_set_string baseRT 4 "hi") 4).2 = 0 ∧
    (gear_get_int (gear_set_string baseRT 4 "hi") 4).1.lastError =
      some GearError.typeMismatch := by
  have h := get_int_float_truncates_and_nonnumeric_errors
    (gear_set_float baseRT 2 sevenAndHalf) 2
  have h2 := get_int_float_truncates_and_nonnumeric_errors
    (gear_set_string baseRT 4 "hi") 4
  refine ⟨?_, (h2.2.1 0 (by decide)).1, (h2.2.1 0 (by decide)).2⟩
  rw [h.1 sevenAndHalf (by decide)]
  decide

/-- Claim C7: `gear_get_bool` returns false exactly when the register holds
the boolean false, Null, or the integer zero; every other value — including
a Float 0.0 and an empty string — reads as true. -/
theorem get_bool_truthiness (rt : Runtime) (r : Nat) :
    (gear_get_bool rt r = false ↔
      (regRead rt r = Value.null ∨ regRead rt r = Value.bool false ∨
        regRead rt r = Value.int 0)) ∧
    (regRead rt r = Value.float 0 → gear_get_bool rt r = true) ∧
    gear_get_bool (gear_set_string rt r "") r = true := by
  refine ⟨?_, ?_, ?_⟩
  · cases hv : regRead rt r <;> simp [gear_get_bool, hv]
  · intro hv
    simp [gear_get_bool, hv]
  · simp [gear_get_bool, gear_set_string, regRead, regWrite]

/-- Witness for C7 at concrete inputs: a 0.0 Float reads as true; false and
Null and integer zero read as false; integer 5 reads as true. -/
theorem get_bool_truthiness_witness :
    (gear_get_bool (gear_set_float baseRT 1 0) 1 = true) ∧
    (gear_get_bool (gear_set_bool baseRT 1 0) 1 = false) ∧
    (gear_get_bool (gear_set_int baseRT 1 5) 1 = true) ∧
    (gear_get_bool (gear_set_string baseRT 1 "") 1 = true) := by
  have h := get_bool_truthiness (gear_set_float baseRT 1 0) 1
  have h2 := get_bool_truthiness (gear_set_string baseRT 1 "") 1
  exact ⟨h.2.1 (by decide), by decide, by decide, h2.2.2⟩

/-- Claim C10: a Bool-holding register is numeric-compatible for
`gear_get_int`, which converts it to 0 or 1 without error, but not for
`gear_get_float`, which returns 0 with the error flag set. -/
theorem bool_numeric_getter_asymmetry (rt : Runtime) (r : Nat) (b : Bool)
    (h : regRead rt r = Value.bool b) :
    (gear_get_float rt r).2 = 0 ∧
    (gear_get_float rt r).1.lastError = some GearError.typeMismatch ∧
    (gear_get_int rt r).2 = (if b then 1 else 0) ∧
    (gear_get_int rt r).1.lastError = rt.lastError := by
  simp [gear_get_float, gear_get_int, h, setError]

/-- Witness for C10 at a concrete input. -/
theorem bool_numeric_getter_asymmetry_witness :
    (gear_get_float (gear_set_bool baseRT 2 1) 2).2 = 0 ∧
    (gear_get_float (gear_set_bool baseRT 2 1) 2).1.lastError =
      some GearError.typeMismatch ∧
    (gear_get_int (gear_set_bool baseRT 2 1) 2).2 = 1 ∧
    (gear_get_int (gear_set_bool baseRT 2 1) 2).1.lastError = none := by
  have h := bool_numeric_getter_asymmetry (gear_set_bool baseRT 2 1) 2 true (by decide)
  exact ⟨h.1, h.2.1, (h.2.2.1).trans (by decide), h.2.2.2⟩

/-- Claim C3: `gear_get_symbol` on a name absent from the loaded module's
exported symbol table returns the not-found sentinel (non-zero, per
gear_runtime.h) and leaves the destination register — in fact the whole
register table — exactly as it was: failure is atomic. -/
theorem get_symbol_absent_atomic (rt : Runtime) (name : String) (dest : Nat)
    (h : lookupSymbol rt name = none) :
    (gear_get_symbol rt name dest).2 = 1 ∧
    regRead (gear_get_symbol rt name dest).1 dest = regRead rt dest ∧
    (gear_get_symbol rt name dest).1.regs = rt.regs := by
  simp [gear_get_symbol, h, setError, regRead]

/-- Witness for C3 at a concrete input: looking up a missing name reports
failure and leaves the previously stored value in the destination. -/
theorem get_symbol_absent_atomic_witness :
    (gear_get_symbol (gear_set_int rtSym 3 99) "mul" 3).2 = 1 ∧
    regRead (gear_get_symbol (gear_set_int rtSym 3 99) "mul" 3).1 3 =
      Value.int 99 := by
  have h := get_symbol_absent_atomic (gear_set_int rtSym 3 99) "mul" 3 (by decide)
  exact ⟨h.1, h.2.1.trans (by decide)⟩

/-- Claim C8 (counterexample): at a concrete instance, the failing
`gear_get_symbol` and `gear_start_debug_server` calls return 1 — not the
zero/false/null sentinel the claim states these calls return on error. -/
theorem error_sentinel_zero_counterexample :
    (gear_get_symbol rtErr "missing" 3).2 = 1 ∧
    ¬ (gear_get_symbol rtErr "missing" 3).2 = 0 ∧
    (gear_start_debug_server rtErr "0.0.0.0" 9229 false).2 = 1 ∧
    ¬ (gear_start_debug_server rtErr "0.0.0.0" 9229 false).2 = 0 := by
  refine ⟨rfl, by decide, rfl, by decide⟩

/-- Claim C8 (amended): every recoverable error condition (TypeMismatch,
SymbolNotFound, DebugServerAlreadyRunning, DebugServerBindFailure) sets the
Error State and returns a sentinel from the offending call; for
`gear_get_symbol` and `gear_start_debug_server` the error sentinel is a
non-zero value (zero signals success), while a failing typed getter's
sentinel is zero.  `rt` exercises the first three conditions; `rt2`, an
instance with no active session whose environment refuses the socket bind,
exercises DebugServerBindFailure. -/
theorem error_sentinel_policy (rt rt2 : Runtime) (name : String) (dest r : Nat)
    (address : String) (port : Int) (w : Bool) (s : String × Int) (a : Nat)
    (hsym : lookupSymbol rt name = none)
    (hdbg : rt.debugServer = some s)
    (hobj : regRead rt r = Value.obj a)
    (hnone : rt2.debugServer = none)
    (hbind : rt2.bindOk address port = false) :
    ((gear_get_symbol rt name dest).2 ≠ 0 ∧
      (gear_get_symbol rt name dest).1.lastError = some GearError.symbolNotFound) ∧
    ((gear_start_debug_server rt address port w).2 ≠ 0 ∧
      (gear_start_debug_server rt address port w).1.lastError =
        some GearError.debugServerAlreadyRunning) ∧
    ((gear_start_debug_server rt2 address port w).2 ≠ 0 ∧
      (gear_start_debug_server rt2 address port w).1.lastError =
        some GearError.debugServerBindFailure) ∧
    ((gear_get_int rt r).2 = 0 ∧
      (gear_get_int rt r).1.lastError = some GearError.typeMismatch) := by
  simp [gear_get_symbol, gear_start_debug_server, gear_get_int, hsym, hdbg,
    hobj, hnone, hbind, setError]

/-- Witness for the amended C8 at concrete instances: `rtErr` for the
TypeMismatch, SymbolNotFound and DebugServerAlreadyRunning conditions;
`rtBind` for DebugServerBindFailure. -/
theorem error_sentinel_policy_witness :
    ((gear_get_symbol rtErr "missing" 3).2 ≠ 0 ∧
      (gear_get_symbol rtErr "missing" 3).1.lastError =
        some GearError.symbolNotFound) ∧
    ((gear_start_debug_server rtErr "0.0.0.0" 9229 false).2 ≠ 0) ∧
    ((gear_start_debug_server rtBind "0.0.0.0" 9229 false).2 ≠ 0 ∧
      (gear_start_debug_server rtBind "0.0.0.0" 9229 false).1.lastError =
        some GearError.debugServerBindFailure) ∧
    ((gear_get_int rtErr 5).2 = 0 ∧
      (gear_get_int rtErr 5).1.lastError = some GearError.typeMismatch) := by
  have h := error_sentinel_policy rtErr rtBind "missing" 3 5 "0.0.0.0" 9229
    false ("0.0.0.0", 9229) 0 (by decide) rfl (by decide) rfl rfl
  exact ⟨h.1, h.2.1.1, h.2.2.1, h.2.2.2⟩

/-- Claim C9: at most one debug session per instance: a second
`gear_start_debug_server` on the same instance fails with the error state
set, returns the non-zero error indication, and leaves the first session
running and unaffected. -/
theorem debug_server_second_start_fails (rt : Runtime) (s : String × Int)
    (address : String) (port : Int) (w : Bool)
    (h : rt.debugServer = some s) :
    (gear_start_debug_server rt address port w).2 = 1 ∧
    (gear_start_debug_server rt address port w).1.debugServer = some s ∧
    (gear_start_debug_server rt address port w).1.lastError =
      some GearError.debugServerAlreadyRunning := by
  simp [gear_start_debug_server, h, setError]

/-- Witness for C9: start a server on 127.0.0.1:9229 non-blocking, then a
second start on the same instance fails and the first session survives. -/
theorem debug_server_second_start_fails_witness :
    (gear_start_debug_server rtDbg "127.0.0.1" 9229 false).2 = 1 ∧
    (gear_start_debug_server rtDbg "127.0.0.1" 9229 false).1.debugServer =
      some ("127.0.0.1", 9229) := by
  have h := debug_server_second_start_fails rtDbg ("127.0.0.1", 9229)
    "127.0.0.1" 9229 false rfl
  exact ⟨h.1, h.2.1⟩

theorem regRead_regWrite_self (rt : Runtime) (r : Nat) (v : Value) :
    regRead (regWrite rt r v) r = v := by
  simp [regRead, regWrite]

theorem regRead_regWrite_ne (rt : Runtime) (r x : Nat) (v : Value) (h : x ≠ r) :
    regRead (regWrite rt r v) x = regRead rt x := by
  simp [regRead, regWrite, h]

theorem get_field_set_field (rt : Runtime) (r1 r2 : Nat) (a : Nat)
    (fields : List (String × Value)) (f : String) (v : Value)
    (h1 : regRead rt r1 = Value.obj a) (h2 : regRead rt r2 = Value.obj a)
    (hheap : rt.heap[a]? = some (some (HeapObj.hobj fields))) :
    gear_get_field (gear_set_field rt r1 f v) r2 f = some v := by
  have hlen : a < rt.heap.length := (List.getElem?_eq_some_iff.mp hheap).1
  simp only [gear_set_field, h1, hheap]
  have h2' : regRead
      { rt with heap := rt.heap.set a (some (HeapObj.hobj (setAssoc fields f v))) }
      r2 = Value.obj a := h2
  simp only [gear_get_field, h2', List.getElem?_set_self hlen, lookupAssoc_setAssoc]

/-- Claim C4: `gear_move` leaves the source register's value unchanged; the
destination receives the same datum, so a primitive is copied by value (a
later primitive write through the destination does not affect the source)
while a reference type is copied by identity (the destination holds a
reference to the identical object, and a field mutation made through either
register is observed through the other). -/
theorem move_value_and_aliasing (rt : Runtime) (src dest : Nat) :
    regRead (gear_move rt src dest) src = regRead rt src ∧
    regRead (gear_move rt src dest) dest = regRead rt src ∧
    (∀ a fields, regRead rt src = Value.obj a →
      rt.heap[a]? = some (some (HeapObj.hobj fields)) →
      ∀ f v,
        gear_get_field (gear_set_field (gear_move rt src dest) dest f v) src f
          = some v ∧
        gear_get_field (gear_set_field (gear_move rt src dest) src f v) dest f
          = some v) ∧
    (∀ sa, regRead rt src = Value.str sa →
      regRead (gear_move rt src dest) dest = Value.str sa) ∧
    (∀ i, regRead rt src = Value.int i → src ≠ dest →
      ∀ j, regRead (gear_set_int (gear_move rt src dest) dest j) src
        = Value.int i) := by
  have hsrc : regRead (gear_move rt src dest) src = regRead rt src := by
    by_cases h : src = dest
    · subst h
      simp [gear_move, regRead_regWrite_self]
    · simp [gear_move, regRead_regWrite_ne rt dest src _ h]
  have hdest : regRead (gear_move rt src dest) dest = regRead rt src :=
    regRead_regWrite_self rt dest (regRead rt src)
  refine ⟨hsrc, hdest, ?_, ?_, ?_⟩
  · intro a fields ha hheap f v
    exact ⟨get_field_set_field (gear_move rt src dest) dest src a fields f v
        (hdest.trans ha) (hsrc.trans ha) hheap,
      get_field_set_field (gear_move rt src dest) src dest a fields f v
        (hsrc.trans ha) (hdest.trans ha) hheap⟩
  · intro sa hsa
    exact hdest.trans hsa
  · intro i hi hne j
    rw [gear_set_int, regRead_regWrite_ne _ dest src _ hne, hsrc, hi]

/-- Witness for C4 at a concrete instance: an Object reference moved from
register 7 to register 9 aliases (a field write through 9 is read through 7),
while the integer in register 8 moved to register 9 does not alias. -/
theorem move_value_and_aliasing_witness :
    regRead (gear_move rtMove 7 9) 7 = Value.obj 0 ∧
    gear_get_field (gear_set_field (gear_move rtMove 7 9) 9 "x" (Value.int 5))
      7 "x" = some (Value.int 5) ∧
    regRead (gear_set_int (gear_move rtMove 8 9) 9 3) 8 = Value.int 11 := by
  have h := move_value_and_aliasing rtMove 7 9
  have h2 := move_value_and_aliasing rtMove 8 9
  refine ⟨h.1.trans (by decide), ?_, ?_⟩
  · exact ((h.2.2.1 0 [("x", Value.int 1)] (by decide) rfl "x" (Value.int 5)).1)
  · exact h2.2.2.2.2 11 (by decide) (by decide) 3

theorem regRead_popFrame (rt : Runtime) (x : Nat) :
    regRead (popFrame rt) x = regRead rt x := rfl

theorem regRead_nullParams_in (rt : Runtime) (argc i : Nat) (h : i < argc) :
    regRead (nullParams rt argc) (GEAR_PARAM i) = Value.null := by
  have hc : 1 ≤ i + 1 ∧ i + 1 ≤ argc := ⟨Nat.le_add_left 1 i, by omega⟩
  simp [nullParams, regRead, GEAR_PARAM, hc]

theorem regRead_nullParams_return (rt : Runtime) (argc : Nat) :
    regRead (nullParams rt argc) GEAR_RETURN = regRead rt GEAR_RETURN := by
  simp [nullParams, regRead, GEAR_RETURN]

theorem callFunction_spec (rt : Runtime) (fid argc : Nat) (f : GearFunc)
    (hfid : rt.funcs[fid]? = some f) :
    (∀ i, i < argc →
      regRead (callFunction rt fid argc) (GEAR_PARAM i) = Value.null) ∧
    regRead (callFunction rt fid argc) GEAR_RETURN
      = f.body (paramValues rt argc) ∧
    (callFunction rt fid argc).callStack = rt.callStack := by
  simp only [callFunction, hfid]
  refine ⟨?_, ?_, ?_⟩
  · intro i hi
    rw [regRead_popFrame, regRead_nullParams_in _ _ _ hi]
  · rw [regRead_popFrame, regRead_nullParams_return, regRead_regWrite_self]
  · rfl

/-- Claim C2: an invocation through `gear_call` or `gear_call_by_name` with
`argc` arguments on a function of `argc` parameters leaves every register of
the parameter window (indices 0..argc-1) null after the call, and writes
exactly one result — the body applied to the values read from the window —
into the reserved return-register slot, overwriting whatever value that slot
held before; the call stack is restored after the frame is popped. -/
theorem call_convention (rt : Runtime) (freg : Nat) (name : String)
    (fid argc : Nat) (f : GearFunc)
    (hreg : regRead rt freg = Value.func fid)
    (hname : lookupSymbol rt name = some (Value.func fid))
    (hfid : rt.funcs[fid]? = some f)
    (harity : f.arity = argc) :
    ((∀ i, i < argc →
        regRead (gear_call rt freg argc) (GEAR_PARAM i) = Value.null) ∧
      regRead (gear_call rt freg argc) GEAR_RETURN
        = f.body (paramValues rt argc)) ∧
    ((∀ i, i < argc →
        regRead (gear_call_by_name rt name argc) (GEAR_PARAM i) = Value.null) ∧
      regRead (gear_call_by_name rt name argc) GEAR_RETURN
        = f.body (paramValues rt argc)) := by
  have hc : gear_call rt freg argc = callFunction rt fid argc := by
    simp only [gear_call, hreg]
  have hn : gear_call_by_name rt name argc = callFunction rt fid argc := by
    simp only [gear_call_by_name, hname]
  have h := callFunction_spec rt fid argc f hfid
  rw [hc, hn]
  exact ⟨⟨h.1, h.2.1⟩, ⟨h.1, h.2.1⟩⟩

/-- Witness for C2: calling the two-parameter `add` function with arguments
4 and 5 nulls the parameter window and puts 9 in the return slot, both when
invoked by register and by name. -/
theorem call_convention_witness :
    regRead (gear_call rtCall 10 2) (GEAR_PARAM 0) = Value.null ∧
    regRead (gear_call rtCall 10 2) (GEAR_PARAM 1) = Value.null ∧
    regRead (gear_call rtCall 10 2) GEAR_RETURN = Value.int 9 ∧
    regRead (gear_call_by_name rtCall "add" 2) GEAR_RETURN = Value.int 9 := by
  have h := call_convention rtCall 10 "add" 0 2 { arity := 2, body := addBody }
    (by decide) (by decide) rfl rfl
  exact ⟨h.1.1 0 (by omega), h.1.1 1 (by omega), h.1.2.trans rfl,
    h.2.2.trans rfl⟩

theorem subset_markStep (succs : Nat → List Nat) (S : Finset Nat) :
    S ⊆ markStep succs S :=
  Finset.subset_union_left

theorem markStep_subset_range (succs : Nat → List Nat) (N : Nat)
    (hs : ∀ i, ∀ a ∈ succs i, a < N) (S : Finset Nat)
    (hS : S ⊆ Finset.range N) : markStep succs S ⊆ Finset.range N := by
  unfold markStep
  refine Finset.union_subset hS (Finset.biUnion_subset.mpr ?_)
  intro a _ b hb
  rw [List.mem_toFinset] at hb
  exact Finset.mem_range.mpr (hs a b hb)

theorem iter_markStep_subset_range (succs : Nat → List Nat) (N : Nat)
    (hs : ∀ i, ∀ a ∈ succs i, a < N) (R : Finset Nat)
    (hR : R ⊆ Finset.range N) (k : Nat) :
    (markStep succs)^[k] R ⊆ Finset.range N := by
  induction k with
  | zero => simpa
  | succ k ih =>
    rw [Function.iterate_succ_apply']
    exact markStep_subset_range succs N hs _ ih

theorem subset_iter_markStep (succs : Nat → List Nat) (R : Finset Nat) (k : Nat) :
    R ⊆ (markStep succs)^[k] R := by
  induction k with
  | zero => simp
  | succ k ih =>
    rw [Function.iterate_succ_apply']
    exact ih.trans (subset_markStep succs _)

theorem markStep_fixed_or_card (succs : Nat → List Nat) (R : Finset Nat) (k : Nat) :
    markStep succs ((markStep succs)^[k] R) = (markStep succs)^[k] R ∨
      k ≤ ((markStep succs)^[k] R).card := by
  induction k with
  | zero => exact Or.inr (Nat.zero_le _)
  | succ k ih =>
    rcases ih with hfix | hcard
    · left
      rw [Function.iterate_succ_apply', hfix, hfix]
    · by_cases hf :
        markStep succs ((markStep succs)^[k] R) = (markStep succs)^[k] R
      · left
        rw [Function.iterate_succ_apply', hf, hf]
      · right
        rw [Function.iterate_succ_apply']
        have hss : (markStep succs)^[k] R ⊂ markStep succs ((markStep succs)^[k] R) :=
          ssubset_iff_subset_ne.mpr ⟨subset_markStep succs _, fun h => hf h.symm⟩
        have hlt := Finset.card_lt_card hss
        omega

theorem markStep_markSet_fixed (succs : Nat → List Nat) (roots : List Nat)
    (N : Nat) (hr : ∀ a ∈ roots, a < N) (hs : ∀ i, ∀ a ∈ succs i, a < N) :
    markStep succs (markSet succs roots N) = markSet succs roots N := by
  have hRrange : roots.toFinset ⊆ Finset.range N := by
    intro a ha
    rw [List.mem_toFinset] at ha
    exact Finset.mem_range.mpr (hr a ha)
  rcases markStep_fixed_or_card succs roots.toFinset N with hfix | hcard
  · exact hfix
  · have hsub : (markStep succs)^[N] roots.toFinset ⊆ Finset.range N :=
      iter_markStep_subset_range succs N hs roots.toFinset hRrange N
    have hcard2 : (Finset.range N).card ≤ ((markStep succs)^[N] roots.toFinset).card := by
      rw [Finset.card_range]
      exact hcard
    have heq : (markStep succs)^[N] roots.toFinset = Finset.range N :=
      Finset.eq_of_subset_of_card_le hsub hcard2
    unfold markSet
    rw [heq]
    exact Finset.Subset.antisymm
      (markStep_subset_range succs N hs _ (Finset.Subset.refl _))
      (subset_markStep succs _)

theorem mem_markSet_of_reach (succs : Nat → List Nat) (roots : List Nat)
    (N : Nat) (hr : ∀ a ∈ roots, a < N) (hs : ∀ i, ∀ a ∈ succs i, a < N)
    {o : Nat} (h : Reach succs roots o) : o ∈ markSet succs roots N := by
  have hfix := markStep_markSet_fixed succs roots N hr hs
  induction h with
  | root hmem =>
    exact subset_iter_markStep succs roots.toFinset N (List.mem_toFinset.mpr hmem)
  | step _ hb ih =>
    rw [← hfix]
    unfold markStep
    exact Finset.mem_union_right _
      (Finset.mem_biUnion.mpr ⟨_, ih, List.mem_toFinset.mpr hb⟩)

theorem reach_lt (succs : Nat → List Nat) (roots : List Nat) (N : Nat)
    (hr : ∀ a ∈ roots, a < N) (hs : ∀ i, ∀ a ∈ succs i, a < N)
    {o : Nat} (h : Reach succs roots o) : o < N := by
  induction h with
  | root hmem => exact hr _ hmem
  | step _ hb _ => exact hs _ _ hb

theorem succsOf_bound (rt : Runtime) (hwf : heapWF rt) :
    ∀ i, ∀ a ∈ succsOf rt i, a < rt.heap.length := by
  intro i a ha
  unfold succsOf at ha
  cases hslot : rt.heap[i]? with
  | none =>
    rw [hslot] at ha
    simp [slotRefs] at ha
  | some slot =>
    rw [hslot] at ha
    exact hwf.2 slot (List.getElem?_mem hslot) a (by simpa using ha)

/-- Claim C1: reachability soundness of the collector: a heap object
transitively reachable from a root (an allocated Register, a live Call Frame
slot, or a module-global constant) is never reclaimed by a full
Marking-then-Sweeping collection cycle — its heap slot is retained with
unchanged content; in particular every reference held by an allocated
register is a root, so the object it references is reachable and survives. -/
theorem gc_reachability_soundness (rt : Runtime) (o : Nat)
    (hwf : heapWF rt) (hreach : Reachable rt o) :
    (gear_collect rt).heap[o]? = rt.heap[o]? ∧
    (∀ r ∈ rt.allocated, ∀ a ∈ valueRefs (regRead rt r), Reachable rt a) := by
  constructor
  · have hN : o < rt.heap.length :=
      reach_lt _ _ _ hwf.1 (succsOf_bound rt hwf) hreach
    have hmark : o ∈ markSet (succsOf rt) (rootsOf rt) rt.heap.length :=
      mem_markSet_of_reach _ _ _ hwf.1 (succsOf_bound rt hwf) hreach
    show ((List.range rt.heap.length).map
      (fun i => if i ∈ markSet (succsOf rt) (rootsOf rt) rt.heap.length
        then rt.heap.getD i none else none))[o]? = rt.heap[o]?
    rw [List.getElem?_map, List.getElem?_range hN, Option.map_some',
      if_pos hmark, List.getD_eq_getElem?_getD, List.getElem?_eq_getElem hN]
    rfl
  · intro r hr a ha
    refine Reach.root ?_
    unfold rootsOf
    exact List.mem_append_left _ (List.mem_append_left _
      (List.mem_flatten.mpr ⟨valueRefs (regRead rt r),
        List.mem_map_of_mem _ hr, ha⟩))

/-- Witness for C1 at a concrete instance: heap object 1 is reachable only
through allocated register 5 (register 5 → object 0 → string 1) and survives
a full collection cycle with unchanged content. -/
theorem gc_reachability_soundness_witness :
    heapWF rtGC ∧ (gear_collect rtGC).heap[1]? = rtGC.heap[1]? := by
  have hroot : Reach (succsOf rtGC) (rootsOf rtGC) 0 := Reach.root (by decide)
  have hreach : Reachable rtGC 1 := Reach.step hroot (by decide)
  exact ⟨by decide, (gc_reachability_soundness rtGC 1 (by decide) hreach).1⟩
